import Mathlib

/-!
Verification development for icon_extractor (src/main.rs).

The program is embedded shallowly: every OS call (`ExtractIconExW`, `GetIconInfo`,
`GetObjectW`, `GetDC`, `GetDIBits`, `ReleaseDC`, `DestroyIcon`, `DeleteObject`) is
answered by an explicit oracle `OsOracle`, and `extract_icon` returns both its
`Result` and the ordered list of OS-level events it performed, so that resource
lifetime and call-ordering properties can be stated over the event trace.
-/

set_option maxRecDepth 8192

namespace IconExtractor

/-- ASCII lowercasing of one character, as in Rust's `u8::to_ascii_lowercase`. -/
def toAsciiLower (c : Char) : Char :=
  if 'A' ≤ c ∧ c ≤ 'Z' then Char.ofNat (c.toNat + 32) else c

/-- Rust `eq_ignore_ascii_case`: equality after ASCII lowercasing both sides. -/
def eqIgnoreAsciiCase (a b : List Char) : Bool :=
  a.map toAsciiLower == b.map toAsciiLower

/-- The facts about the input path that `extract_icon` consults: whether it
exists on the filesystem, and its extension (`none` when the path has none),
mirroring `file_path.exists()` and `file_path.extension()` in main.rs. -/
structure InputPath where
  pathExists : Bool
  extension : Option (List Char)
deriving DecidableEq

/-- The extension literal `"exe"` compared against in main.rs line 23. -/
def exeExt : List Char := ['e', 'x', 'e']

/-- The `satisfied` condition of main.rs lines 20-23:
`file_path.exists() && file_path.extension().map_or(false, |ext| ext.eq_ignore_ascii_case("exe"))`. -/
def pathSatisfied (p : InputPath) : Bool :=
  p.pathExists && p.extension.elim false (fun e => eqIgnoreAsciiCase e exeExt)

/-- Oracle answering each OS call of one `extract_icon` run: the return value of
`ExtractIconExW`, nullness of the extracted handle, success of `GetIconInfo` /
`GetObjectW`, the `BITMAP` geometry reported by `GetObjectW`, the scanline count
returned by `GetDIBits` together with the bytes it deposits, and whether
`img.save` succeeds. -/
structure OsOracle where
  extractedCount : Nat
  iconIsNull : Bool
  getIconInfoOk : Bool
  getObjectOk : Bool
  bmWidth : Nat
  bmHeight : Nat
  getDIBitsRet : Nat
  dibByte : Nat → Nat
  saveOk : Bool

/-- One OS-level action performed by the pipeline, recorded in order. -/
inductive Event where
  | extractIconEx (iconIndex : Nat) (nIcons : Nat)
  | getIconInfo
  | getObject
  | getDC
  | getDIBits (biWidth : Int) (biHeight : Int) (biBitCount : Nat) (bufLen : Nat)
  | releaseDC
  | destroyIcon
  | deleteObjectColor
  | deleteObjectMask
  | saveFile (path : String)
  | launchViewer (path : String)
deriving DecidableEq

/-- The `BITMAPINFOHEADER` record filled in at main.rs lines 74-86. -/
structure BITMAPINFOHEADER where
  biSize : Nat
  biWidth : Int
  biHeight : Int
  biPlanes : Nat
  biBitCount : Nat
  biCompression : Nat
  biSizeImage : Nat
  biXPelsPerMeter : Int
  biYPelsPerMeter : Int
  biClrUsed : Nat
  biClrImportant : Nat
deriving DecidableEq

/-- The header the renderer hands to `GetDIBits` (main.rs lines 73-88):
width as queried, height negated to request top-down rows, 32 bits per pixel,
`BI_RGB` compression. `biSize` is `size_of::<BITMAPINFOHEADER>()`, 40 bytes. -/
def mkBmpInfoHeader (width height : Nat) : BITMAPINFOHEADER :=
  ⟨40, (width : Int), -(height : Int), 1, 32, 0, 0, 0, 0, 0, 0⟩

/-- The destination buffer `vec![0u8; width * height * 4]` of main.rs line 90. -/
def allocPixels (w h : Nat) : List Nat := List.replicate (w * h * 4) 0

/-- The pixel buffer after `GetDIBits` wrote into it: same length, contents
supplied by the OS oracle byte by byte. -/
def renderedPixels (os : OsOracle) (w h : Nat) : List Nat :=
  (List.range (w * h * 4)).map os.dibByte

/-- The value `usize::MAX` on the 64-bit target. -/
def usizeMax : Nat := 2 ^ 64 - 1

/-- Rust `usize::checked_mul`: `none` on overflow. -/
def checkedMul (a b : Nat) : Option Nat :=
  if a * b ≤ usizeMax then some (a * b) else none

/-- The image crate's `ImageBuffer::image_buffer_len` for `Rgba<u8>`
(channel count 4): `Some(4).checked_mul(width).checked_mul(height)`. -/
def imageBufferLen (w h : Nat) : Option Nat :=
  (checkedMul 4 w).bind fun s => checkedMul s h

/-- The image crate's `ImageBuffer::check_image_fits`: the required length is computable and is
at most the buffer's length (the crate accepts larger buffers). -/
def checkImageFits (w h len : Nat) : Bool :=
  (imageBufferLen w h).elim false fun m => decide (m ≤ len)

/-- A validated RGBA raster, the in-memory result of `ImageBuffer::from_raw`. -/
structure RasterImage where
  width : Nat
  height : Nat
  data : List Nat
deriving DecidableEq

/-- The image crate's `ImageBuffer::from_raw`: succeeds exactly when the
buffer fits the requested geometry. -/
def fromRaw (w h : Nat) (buf : List Nat) : Option RasterImage :=
  if checkImageFits w h buf.length then some ⟨w, h, buf⟩ else none

/-- The distinct failure exits of `extract_icon`, one per `bail!`/`?` site. -/
inductive ExtractError where
  | invalidInput
  | extractIconFailed
  | getIconInfoFailed
  | getObjectFailed
  | getDIBitsFailed
  | imageBufferFailed
  | saveFailed
deriving DecidableEq

instance {ε α : Type} [DecidableEq ε] [DecidableEq α] : DecidableEq (Except ε α) :=
  fun a b =>
    match a, b with
    | Except.error e, Except.error f =>
      decidable_of_iff (e = f) ⟨fun h => by rw [h], fun h => by injection h⟩
    | Except.ok x, Except.ok y =>
      decidable_of_iff (x = y) ⟨fun h => by rw [h], fun h => by injection h⟩
    | Except.error _, Except.ok _ => isFalse (fun h => Except.noConfusion h)
    | Except.ok _, Except.error _ => isFalse (fun h => Except.noConfusion h)

/-- Model of `Path::join` for a directory and a file name. -/
def joinPath (d f : String) : String := d ++ "/" ++ f

/-- Shallow embedding of `extract_icon` (main.rs lines 19-123), returning the
Rust function's result together with the ordered trace of OS events. Each
branch mirrors one fallible step of the source; note that on the
`GetIconInfo` / `GetObjectW` / `GetDIBits` failure paths only `DestroyIcon`
runs, and on the `from_raw` / `save` failure paths (the `?` operators at
lines 111 and 114) no release call runs at all, exactly as in the source. -/
def extract_icon (os : OsOracle) (filePath : InputPath) (outputDir : String) :
    Except ExtractError String × List Event :=
  if pathSatisfied filePath = false then
    (Except.error ExtractError.invalidInput, [])
  else
    let t0 : List Event := [Event.extractIconEx 0 1]
    if os.extractedCount = 0 ∨ os.iconIsNull = true then
      (Except.error ExtractError.extractIconFailed, t0)
    else
      let t1 := t0 ++ [Event.getIconInfo]
      if os.getIconInfoOk = false then
        (Except.error ExtractError.getIconInfoFailed, t1 ++ [Event.destroyIcon])
      else
        let t2 := t1 ++ [Event.getObject]
        if os.getObjectOk = false then
          (Except.error ExtractError.getObjectFailed, t2 ++ [Event.destroyIcon])
        else
          let width := os.bmWidth
          let height := os.bmHeight
          let hdr := mkBmpInfoHeader width height
          let pixels := allocPixels width height
          let t3 := t2 ++ [Event.getDC,
            Event.getDIBits hdr.biWidth hdr.biHeight hdr.biBitCount pixels.length,
            Event.releaseDC]
          if os.getDIBitsRet = 0 then
            (Except.error ExtractError.getDIBitsFailed, t3 ++ [Event.destroyIcon])
          else
            match fromRaw width height (renderedPixels os width height) with
            | none => (Except.error ExtractError.imageBufferFailed, t3)
            | some _img =>
              let outputPath := joinPath outputDir "icon.png"
              if os.saveOk = false then
                (Except.error ExtractError.saveFailed, t3 ++ [Event.saveFile outputPath])
              else
                (Except.ok outputPath,
                 t3 ++ [Event.saveFile outputPath, Event.destroyIcon,
                        Event.deleteObjectColor, Event.deleteObjectMask])

/-- The condition under which the pipeline reaches the encode step: validation,
resolution, `GetIconInfo`, `GetObjectW` and `GetDIBits` all succeeded and the
raster was fully constructed in memory by `from_raw`. -/
def reachesEncode (os : OsOracle) (p : InputPath) : Bool :=
  pathSatisfied p &&
  !(decide (os.extractedCount = 0 ∨ os.iconIsNull = true)) &&
  os.getIconInfoOk && os.getObjectOk &&
  !(decide (os.getDIBitsRet = 0)) &&
  (fromRaw os.bmWidth os.bmHeight (renderedPixels os os.bmWidth os.bmHeight)).isSome

/-- Observable outcome of `main`: whether usage went to standard error, what
was printed to standard output, and the process exit status. -/
structure MainResult where
  usageToStderr : Bool
  stdoutMsg : Option String
  exitCode : Nat
deriving DecidableEq

/-- Shallow embedding of `main` (main.rs lines 125-149). `env::args()` always
carries the program name first, so the argument vector is split into the
program name and the remaining arguments; `args.len() < 2` is `rest = []`.
A `main` returning `Err` exits with status 1. -/
def mainRun (os : OsOracle) (tempdirOk : Bool) (tempPath : String)
    (rest : List InputPath) : MainResult × List Event :=
  match rest with
  | [] => (⟨true, none, 0⟩, [])
  | fp :: _ =>
    if tempdirOk = false then
      (⟨false, none, 1⟩, [])
    else
      match extract_icon os fp tempPath with
      | (Except.error _, tr) => (⟨false, none, 1⟩, tr)
      | (Except.ok pathOut, tr) =>
        (⟨false, some ("Icon extracted to: " ++ pathOut), 0⟩,
         tr ++ [Event.launchViewer pathOut])

/-- Helper: decoding succeeds whenever the computed size fits `usize` and the
buffer, returning the raster built over the given buffer. -/
theorem fromRaw_some_of_le (w h : Nat) (buf : List Nat)
    (h1 : 4 * w ≤ usizeMax) (h2 : 4 * w * h ≤ usizeMax)
    (h3 : 4 * w * h ≤ buf.length) :
    fromRaw w h buf = some ⟨w, h, buf⟩ := by
  unfold fromRaw checkImageFits imageBufferLen checkedMul
  simp [h1, h2, h3]

/-- Helper: the length of the rendered pixel buffer. -/
theorem renderedPixels_length (os : OsOracle) (w h : Nat) :
    (renderedPixels os w h).length = w * h * 4 := by
  simp [renderedPixels]

/-- Helper: once validation, resolution, `GetIconInfo` and `GetObjectW` have all
succeeded, `extract_icon` reduces to the render/decode/encode tail over a
concrete six-event prefix. -/
theorem extract_icon_after_inspect (os : OsOracle) (p : InputPath) (d : String)
    (h1 : pathSatisfied p = true)
    (h2 : ¬ (os.extractedCount = 0 ∨ os.iconIsNull = true))
    (h3 : os.getIconInfoOk = true)
    (h4 : os.getObjectOk = true) :
    extract_icon os p d =
      (if os.getDIBitsRet = 0 then
        (Except.error ExtractError.getDIBitsFailed,
         [Event.extractIconEx 0 1, Event.getIconInfo, Event.getObject, Event.getDC,
          Event.getDIBits (os.bmWidth : Int) (-(os.bmHeight : Int)) 32
            (os.bmWidth * os.bmHeight * 4),
          Event.releaseDC, Event.destroyIcon])
      else
        match fromRaw os.bmWidth os.bmHeight (renderedPixels os os.bmWidth os.bmHeight) with
        | none =>
          (Except.error ExtractError.imageBufferFailed,
           [Event.extractIconEx 0 1, Event.getIconInfo, Event.getObject, Event.getDC,
            Event.getDIBits (os.bmWidth : Int) (-(os.bmHeight : Int)) 32
              (os.bmWidth * os.bmHeight * 4),
            Event.releaseDC])
        | some _ =>
          if os.saveOk = false then
            (Except.error ExtractError.saveFailed,
             [Event.extractIconEx 0 1, Event.getIconInfo, Event.getObject, Event.getDC,
              Event.getDIBits (os.bmWidth : Int) (-(os.bmHeight : Int)) 32
                (os.bmWidth * os.bmHeight * 4),
              Event.releaseDC, Event.saveFile (joinPath d "icon.png")])
          else
            (Except.ok (joinPath d "icon.png"),
             [Event.extractIconEx 0 1, Event.getIconInfo, Event.getObject, Event.getDC,
              Event.getDIBits (os.bmWidth : Int) (-(os.bmHeight : Int)) 32
                (os.bmWidth * os.bmHeight * 4),
              Event.releaseDC, Event.saveFile (joinPath d "icon.png"), Event.destroyIcon,
              Event.deleteObjectColor, Event.deleteObjectMask])) := by
  simp [extract_icon, h1, h2, h3, h4, mkBmpInfoHeader, allocPixels]

/-- Claim C2: for every path that does not exist, or whose extension is missing
or differs from "exe" case-insensitively, `extract_icon` fails with the
invalid-input error and performs no OS call at all (empty event trace). -/
theorem c2_invalid_input_before_os (os : OsOracle) (p : InputPath) (d : String)
    (h : p.pathExists = false ∨
      p.extension.elim true (fun e => !eqIgnoreAsciiCase e exeExt) = true) :
    extract_icon os p d = (Except.error ExtractError.invalidInput, []) := by
  have hs : pathSatisfied p = false := by
    rcases h with h | h
    · simp [pathSatisfied, h]
    · cases hx : p.extension with
      | none => simp [pathSatisfied, hx]
      | some e =>
        simp only [hx, Option.elim, Bool.not_eq_true'] at h
        simp [pathSatisfied, hx, h]
  simp [extract_icon, hs]

/-- Witness for C2 at a concrete existing path with extension "txt". -/
theorem c2_invalid_input_witness :
    extract_icon ⟨1, false, true, true, 1, 1, 1, fun _ => 0, true⟩
      ⟨true, some ['t', 'x', 't']⟩ "out" =
      (Except.error ExtractError.invalidInput, []) :=
  c2_invalid_input_before_os _ _ _ (Or.inr (by decide))

/-- Claim C9: invoked with no argument (argument list past the program name is
empty), `main` prints usage to standard error and exits with status 0,
performing no OS call. -/
theorem c9_no_arg_usage (os : OsOracle) (tempdirOk : Bool) (tempPath : String) :
    mainRun os tempdirOk tempPath [] = (⟨true, none, 0⟩, []) := rfl

/-- Claim C6 counterexample: a 5-byte buffer for 1×1 geometry has length
different from 1·1·4, yet `from_raw` succeeds (the image crate only requires
the buffer to be at least the computed size), refuting "fails if and only if
the length differs from W·H·4". -/
theorem c6_oversized_buffer_decodes :
    (1 : Nat) * 1 * 4 ≠ 5 ∧
    fromRaw 1 1 (List.replicate 5 0) = some ⟨1, 1, List.replicate 5 0⟩ := by
  constructor
  · decide
  · decide

/-- Claim C6 as amended: decoding fails exactly when the required size 4·W·H
overflows `usize` or exceeds the buffer length; a buffer of exactly W·H·4
bytes (with the product in range) decodes successfully. -/
theorem c6_decoder_iff (w h : Nat) (buf : List Nat) :
    (fromRaw w h buf = none ↔
      ¬ (4 * w ≤ usizeMax ∧ 4 * w * h ≤ usizeMax ∧ 4 * w * h ≤ buf.length)) ∧
    (buf.length = w * h * 4 → 4 * w ≤ usizeMax → 4 * w * h ≤ usizeMax →
      fromRaw w h buf = some ⟨w, h, buf⟩) := by
  have hcomm : 4 * w * h = w * h * 4 := by ring
  constructor
  · unfold fromRaw checkImageFits imageBufferLen checkedMul
    by_cases h1 : 4 * w ≤ usizeMax
    · by_cases h2 : 4 * w * h ≤ usizeMax
      · by_cases h3 : 4 * w * h ≤ buf.length
        · simp [h1, h2, h3]
        · simp [h1, h2, h3]
      · simp [h1, h2]
    · simp [h1]
  · intro hlen h1 h2
    have h3 : 4 * w * h ≤ buf.length := by rw [hlen, ← hcomm]
    unfold fromRaw checkImageFits imageBufferLen checkedMul
    simp [h1, h2, h3]

/-- Witness for C6's amended theorem at 2×2 geometry and a 16-byte buffer. -/
theorem c6_decoder_iff_witness :
    fromRaw 2 2 (List.replicate 16 0) = some ⟨2, 2, List.replicate 16 0⟩ :=
  (c6_decoder_iff 2 2 (List.replicate 16 0)).2 (by decide) (by decide) (by decide)

/-- Claim C1 fails on the code: with a valid 1×1 icon whose extraction
succeeds end-to-end in memory but whose `img.save` call fails (the `?` at
main.rs line 114), `extract_icon` returns the save error having emitted no
`DestroyIcon` and no `DeleteObject` at all — the icon handle and both bitmap
handles leak on that exit path. -/
theorem c1_leak_on_save_failure :
    ((extract_icon ⟨1, false, true, true, 1, 1, 1, fun _ => 0, false⟩
        ⟨true, some exeExt⟩ "out").1 = Except.error ExtractError.saveFailed) ∧
    ((extract_icon ⟨1, false, true, true, 1, 1, 1, fun _ => 0, false⟩
        ⟨true, some exeExt⟩ "out").2.count Event.destroyIcon = 0) ∧
    ((extract_icon ⟨1, false, true, true, 1, 1, 1, fun _ => 0, false⟩
        ⟨true, some exeExt⟩ "out").2.count Event.deleteObjectColor = 0) ∧
    ((extract_icon ⟨1, false, true, true, 1, 1, 1, fun _ => 0, false⟩
        ⟨true, some exeExt⟩ "out").2.count Event.deleteObjectMask = 0) := by
  decide

/-- Claim C7: for every valid geometry (both dimensions positive and the
required byte count in `usize` range), the renderer's buffer has exactly
W·H·4 bytes and decoding it yields a raster of dimensions exactly W×H. -/
theorem c7_round_trip (os : OsOracle) (w h : Nat)
    (_hw : 0 < w) (hh : 0 < h) (hfit : 4 * w * h ≤ usizeMax) :
    (renderedPixels os w h).length = w * h * 4 ∧
    ∃ img, fromRaw w h (renderedPixels os w h) = some img ∧
      img.width = w ∧ img.height = h := by
  have h1 : 4 * w ≤ usizeMax := le_trans (by nlinarith) hfit
  have h3 : 4 * w * h ≤ (renderedPixels os w h).length := by
    rw [renderedPixels_length]
    nlinarith
  exact ⟨renderedPixels_length os w h,
    ⟨w, h, renderedPixels os w h⟩, fromRaw_some_of_le w h _ h1 hfit h3, rfl, rfl⟩

/-- Witness for C7 at 1×1 geometry. -/
theorem c7_round_trip_witness :
    (renderedPixels ⟨1, false, true, true, 1, 1, 1, fun _ => 0, true⟩ 1 1).length =
      1 * 1 * 4 ∧
    (fromRaw 1 1 (renderedPixels ⟨1, false, true, true, 1, 1, 1, fun _ => 0, true⟩ 1 1)).isSome =
      true := by
  obtain ⟨hlen, img, hsome, hwidth, hheight⟩ :=
    c7_round_trip ⟨1, false, true, true, 1, 1, 1, fun _ => 0, true⟩ 1 1
      (by decide) (by decide) (by decide)
  exact ⟨hlen, by rw [hsome]; rfl⟩

/-- Claim C4: past geometry inspection, the renderer allocates a destination
buffer of exactly W·H·4 bytes and the `BITMAPINFOHEADER` handed to `GetDIBits`
carries a negated height (top-down request) and 32 bits per pixel — witnessed
by the `getDIBits` event recorded in the pipeline's trace. -/
theorem c4_renderer_layout (os : OsOracle) (p : InputPath) (d : String)
    (h1 : pathSatisfied p = true)
    (h2 : ¬ (os.extractedCount = 0 ∨ os.iconIsNull = true))
    (h3 : os.getIconInfoOk = true)
    (h4 : os.getObjectOk = true) :
    (allocPixels os.bmWidth os.bmHeight).length = os.bmWidth * os.bmHeight * 4 ∧
    (mkBmpInfoHeader os.bmWidth os.bmHeight).biHeight = -(os.bmHeight : Int) ∧
    (mkBmpInfoHeader os.bmWidth os.bmHeight).biBitCount = 32 ∧
    Event.getDIBits (os.bmWidth : Int) (-(os.bmHeight : Int)) 32
        (os.bmWidth * os.bmHeight * 4) ∈ (extract_icon os p d).2 := by
  refine ⟨by simp [allocPixels], rfl, rfl, ?_⟩
  rw [extract_icon_after_inspect os p d h1 h2 h3 h4]
  by_cases h5 : os.getDIBitsRet = 0
  · simp [h5]
  · cases hfr : fromRaw os.bmWidth os.bmHeight (renderedPixels os os.bmWidth os.bmHeight) with
    | none => simp [h5, hfr]
    | some img =>
      by_cases h6 : os.saveOk = false
      · simp [h5, hfr, h6]
      · simp [h5, hfr, h6]

/-- Witness for C4 at a concrete 1×1 run. -/
theorem c4_renderer_layout_witness :
    (allocPixels 1 1).length = 1 * 1 * 4 ∧
    (mkBmpInfoHeader 1 1).biHeight = -(1 : Int) ∧
    (mkBmpInfoHeader 1 1).biBitCount = 32 ∧
    Event.getDIBits (1 : Int) (-(1 : Int)) 32 (1 * 1 * 4) ∈
      (extract_icon ⟨1, false, true, true, 1, 1, 1, fun _ => 0, true⟩
        ⟨true, some exeExt⟩ "out").2 :=
  c4_renderer_layout ⟨1, false, true, true, 1, 1, 1, fun _ => 0, true⟩
    ⟨true, some exeExt⟩ "out" (by decide) (by decide) rfl rfl

/-- Claim C5: past geometry inspection the trace always begins with the device
context acquired immediately before the pixel copy and released immediately
after it, whatever `GetDIBits` returned; when `GetDIBits` reports zero
scanlines the error is reported only after `ReleaseDC`, with `DestroyIcon` the
sole later event. -/
theorem c5_dc_scoped (os : OsOracle) (p : InputPath) (d : String)
    (h1 : pathSatisfied p = true)
    (h2 : ¬ (os.extractedCount = 0 ∨ os.iconIsNull = true))
    (h3 : os.getIconInfoOk = true)
    (h4 : os.getObjectOk = true) :
    ∃ post,
      (extract_icon os p d).2 =
        [Event.extractIconEx 0 1, Event.getIconInfo, Event.getObject, Event.getDC,
         Event.getDIBits (os.bmWidth : Int) (-(os.bmHeight : Int)) 32
           (os.bmWidth * os.bmHeight * 4),
         Event.releaseDC] ++ post ∧
      (os.getDIBitsRet = 0 →
        (extract_icon os p d).1 = Except.error ExtractError.getDIBitsFailed ∧
        post = [Event.destroyIcon]) := by
  rw [extract_icon_after_inspect os p d h1 h2 h3 h4]
  by_cases h5 : os.getDIBitsRet = 0
  · exact ⟨[Event.destroyIcon], by simp [h5], fun _ => ⟨by simp [h5], rfl⟩⟩
  · cases hfr : fromRaw os.bmWidth os.bmHeight (renderedPixels os os.bmWidth os.bmHeight) with
    | none => exact ⟨[], by simp [h5, hfr], fun hc => absurd hc h5⟩
    | some img =>
      by_cases h6 : os.saveOk = false
      · exact ⟨[Event.saveFile (joinPath d "icon.png")], by simp [h5, hfr, h6],
          fun hc => absurd hc h5⟩
      · exact ⟨[Event.saveFile (joinPath d "icon.png"), Event.destroyIcon,
          Event.deleteObjectColor, Event.deleteObjectMask], by simp [h5, hfr, h6],
          fun hc => absurd hc h5⟩

/-- Witness for C5 at a concrete run whose `GetDIBits` call fails: the device
context is still acquired and released around the copy, and the error comes
after. -/
theorem c5_dc_scoped_witness :
    (extract_icon ⟨1, false, true, true, 1, 1, 0, fun _ => 0, true⟩
        ⟨true, some exeExt⟩ "out").2 =
      [Event.extractIconEx 0 1, Event.getIconInfo, Event.getObject, Event.getDC,
       Event.getDIBits (1 : Int) (-(1 : Int)) 32 (1 * 1 * 4),
       Event.releaseDC] ++ [Event.destroyIcon] ∧
    (extract_icon ⟨1, false, true, true, 1, 1, 0, fun _ => 0, true⟩
        ⟨true, some exeExt⟩ "out").1 =
      Except.error ExtractError.getDIBitsFailed := by
  obtain ⟨post, hpre, hfail⟩ :=
    c5_dc_scoped ⟨1, false, true, true, 1, 1, 0, fun _ => 0, true⟩
      ⟨true, some exeExt⟩ "out" (by decide) (by decide) rfl rfl
  obtain ⟨herr, hpost⟩ := hfail rfl
  rw [hpost] at hpre
  exact ⟨hpre, herr⟩

/-- Claim C3 counterexample: the run where `ExtractIconExW` reports zero
extracted handles and the run where it reports one handle that is null produce
the *same* error — the code raises one uniform failure at that site, so the
claimed NotFound / OsFailure distinction between the two cases does not exist. -/
theorem c3_same_error_both_cases :
    (extract_icon ⟨0, false, true, true, 1, 1, 1, fun _ => 0, true⟩
        ⟨true, some exeExt⟩ "out").1 =
      (extract_icon ⟨1, true, true, true, 1, 1, 1, fun _ => 0, true⟩
        ⟨true, some exeExt⟩ "out").1 ∧
    (extract_icon ⟨0, false, true, true, 1, 1, 1, fun _ => 0, true⟩
        ⟨true, some exeExt⟩ "out").1 = Except.error ExtractError.extractIconFailed := by
  decide

/-- Claim C3 as amended: on a validated path the resolver asks only for the
icon at index 0 (one handle), and extraction fails with the single resolver
error exactly when `ExtractIconExW` reports zero extracted handles or a null
icon handle. -/
theorem c3_resolver_amended (os : OsOracle) (p : InputPath) (d : String)
    (h : pathSatisfied p = true) :
    ((extract_icon os p d).1 = Except.error ExtractError.extractIconFailed ↔
      (os.extractedCount = 0 ∨ os.iconIsNull = true)) ∧
    ∀ i n, Event.extractIconEx i n ∈ (extract_icon os p d).2 → i = 0 ∧ n = 1 := by
  by_cases hr : os.extractedCount = 0 ∨ os.iconIsNull = true
  · constructor
    · constructor
      · intro _
        exact hr
      · intro _
        simp [extract_icon, h, hr]
    · intro i n hm
      simp [extract_icon, h, hr] at hm
      exact hm
  · have key : (extract_icon os p d).1 ≠ Except.error ExtractError.extractIconFailed ∧
        ∀ i n, Event.extractIconEx i n ∈ (extract_icon os p d).2 → i = 0 ∧ n = 1 := by
      by_cases h3 : os.getIconInfoOk = true
      · by_cases h4 : os.getObjectOk = true
        · rw [extract_icon_after_inspect os p d h hr h3 h4]
          by_cases h5 : os.getDIBitsRet = 0
          · constructor
            · simp [h5]
            · intro i n hm
              simp [h5] at hm
              exact hm
          · cases hfr : fromRaw os.bmWidth os.bmHeight
                (renderedPixels os os.bmWidth os.bmHeight) with
            | none =>
              constructor
              · simp [h5, hfr]
              · intro i n hm
                simp [h5, hfr] at hm
                exact hm
            | some img =>
              by_cases h6 : os.saveOk = false
              · constructor
                · simp [h5, hfr, h6]
                · intro i n hm
                  simp [h5, hfr, h6] at hm
                  exact hm
              · constructor
                · simp [h5, hfr, h6]
                · intro i n hm
                  simp [h5, hfr, h6] at hm
                  exact hm
        · have h4' : os.getObjectOk = false := by simpa using h4
          constructor
          · simp [extract_icon, h, hr, h3, h4']
          · intro i n hm
            simp [extract_icon, h, hr, h3, h4'] at hm
            exact hm
      · have h3' : os.getIconInfoOk = false := by simpa using h3
        constructor
        · simp [extract_icon, h, hr, h3']
        · intro i n hm
          simp [extract_icon, h, hr, h3'] at hm
          exact hm
    exact ⟨⟨fun hc => absurd hc key.1, fun hc => absurd hc hr⟩, key.2⟩

/-- Witness for C3's amended theorem at a run reporting zero handles. -/
theorem c3_resolver_amended_witness :
    (extract_icon ⟨0, false, true, true, 1, 1, 1, fun _ => 0, true⟩
        ⟨true, some exeExt⟩ "out").1 =
      Except.error ExtractError.extractIconFailed :=
  ((c3_resolver_amended ⟨0, false, true, true, 1, 1, 1, fun _ => 0, true⟩
    ⟨true, some exeExt⟩ "out" (by decide)).1).mpr (Or.inl rfl)

/-- Claim C8: a successful run returns exactly `<output_directory>/icon.png`;
the file-write event occurs in the trace precisely when every earlier step
succeeded and the raster was fully constructed in memory, and it only ever
targets that one path — in particular, no output file is produced when any
earlier step fails. -/
theorem c8_output_discipline (os : OsOracle) (p : InputPath) (d : String) :
    (∀ out, (extract_icon os p d).1 = Except.ok out → out = joinPath d "icon.png") ∧
    ((∃ q, Event.saveFile q ∈ (extract_icon os p d).2) ↔ reachesEncode os p = true) ∧
    (∀ q, Event.saveFile q ∈ (extract_icon os p d).2 → q = joinPath d "icon.png") := by
  by_cases hp : pathSatisfied p = true
  · by_cases hr : os.extractedCount = 0 ∨ os.iconIsNull = true
    · simp [extract_icon, reachesEncode, hp, hr]
    · by_cases h3 : os.getIconInfoOk = true
      · by_cases h4 : os.getObjectOk = true
        · rw [extract_icon_after_inspect os p d hp hr h3 h4]
          by_cases h5 : os.getDIBitsRet = 0
          · simp [reachesEncode, hp, hr, h3, h4, h5]
          · cases hfr : fromRaw os.bmWidth os.bmHeight
                (renderedPixels os os.bmWidth os.bmHeight) with
            | none => simp [reachesEncode, hp, hr, h3, h4, h5, hfr]
            | some img =>
              by_cases h6 : os.saveOk = false
              · simp [reachesEncode, hp, hr, h3, h4, h5, hfr, h6]
              · simp [reachesEncode, hp, hr, h3, h4, h5, hfr, h6]
        · have h4' : os.getObjectOk = false := by simpa using h4
          simp [extract_icon, reachesEncode, hp, hr, h3, h4']
      · have h3' : os.getIconInfoOk = false := by simpa using h3
        simp [extract_icon, reachesEncode, hp, hr, h3']
  · have hp' : pathSatisfied p = false := by simpa using hp
    simp [extract_icon, reachesEncode, hp']

/-- Witness for C8: a fully successful concrete run records a file write, and
it targets exactly `out/icon.png`. -/
theorem c8_output_discipline_witness :
    Event.saveFile (joinPath "out" "icon.png") ∈
      (extract_icon ⟨1, false, true, true, 1, 1, 1, fun _ => 0, true⟩
        ⟨true, some exeExt⟩ "out").2 := by
  obtain ⟨q, hq⟩ :=
    (c8_output_discipline ⟨1, false, true, true, 1, 1, 1, fun _ => 0, true⟩
      ⟨true, some exeExt⟩ "out").2.1.mpr (by decide)
  have hq2 :=
    (c8_output_discipline ⟨1, false, true, true, 1, 1, 1, fun _ => 0, true⟩
      ⟨true, some exeExt⟩ "out").2.2 q hq
  rw [hq2] at hq
  exact hq

/-- Claim C10: whenever the allocation `width * height * 4` is representable
(which holds for every bitmap the OS can report), the buffer handed to
`from_raw` has exactly the length `from_raw` requires for that same width and
height, so the "Failed to create ImageBuffer" exit of `extract_icon` is
unreachable whatever the oracle does. -/
theorem c10_decode_branch_unreachable (os : OsOracle) (p : InputPath) (d : String)
    (h1 : 4 * os.bmWidth ≤ usizeMax)
    (h2 : 4 * os.bmWidth * os.bmHeight ≤ usizeMax) :
    (renderedPixels os os.bmWidth os.bmHeight).length =
      os.bmWidth * os.bmHeight * 4 ∧
    (extract_icon os p d).1 ≠ Except.error ExtractError.imageBufferFailed := by
  refine ⟨renderedPixels_length os _ _, ?_⟩
  have hfr : fromRaw os.bmWidth os.bmHeight (renderedPixels os os.bmWidth os.bmHeight) =
      some ⟨os.bmWidth, os.bmHeight, renderedPixels os os.bmWidth os.bmHeight⟩ :=
    fromRaw_some_of_le _ _ _ h1 h2
      (by rw [renderedPixels_length]; exact Nat.le_of_eq (by ring))
  by_cases hp : pathSatisfied p = true
  · by_cases hr : os.extractedCount = 0 ∨ os.iconIsNull = true
    · simp [extract_icon, hp, hr]
    · by_cases h3 : os.getIconInfoOk = true
      · by_cases h4 : os.getObjectOk = true
        · rw [extract_icon_after_inspect os p d hp hr h3 h4]
          by_cases h5 : os.getDIBitsRet = 0
          · simp [h5]
          · by_cases h6 : os.saveOk = false
            · simp [h5, hfr, h6]
            · simp [h5, hfr, h6]
        · have h4' : os.getObjectOk = false := by simpa using h4
          simp [extract_icon, hp, hr, h3, h4']
      · have h3' : os.getIconInfoOk = false := by simpa using h3
        simp [extract_icon, hp, hr, h3']
  · have hp' : pathSatisfied p = false := by simpa using hp
    simp [extract_icon, hp']

/-- Witness for C10 at a concrete 1×1 run. -/
theorem c10_decode_branch_unreachable_witness :
    (renderedPixels ⟨1, false, true, true, 1, 1, 1, fun _ => 0, true⟩ 1 1).length =
      1 * 1 * 4 ∧
    (extract_icon ⟨1, false, true, true, 1, 1, 1, fun _ => 0, true⟩
        ⟨true, some exeExt⟩ "out").1 ≠ Except.error ExtractError.imageBufferFailed :=
  c10_decode_branch_unreachable ⟨1, false, true, true, 1, 1, 1, fun _ => 0, true⟩
    ⟨true, some exeExt⟩ "out" (by decide) (by decide)

end IconExtractor
